import Mathlib

/-!
Verification of the PubMed XML-to-CSV collection script
(src/code/1_Data_Collection.py) against its specification.

The script is embedded shallowly:
  * an ElementTree XML element becomes the inductive `XmlElement`
    (tag, optional text, child list), with `find` / `findall` over
    direct children and over descendants (the `.//` paths used by the
    script);
  * the extraction functions `extract_date`, `parse_mesh_headings`,
    `parse_keywords`, `parse_xml` are translated one-to-one; Python
    exceptions that can escape a function are modelled with `Except`
    (the `TypeError` that `str.join` raises on a `None` item), while
    exceptions the source catches locally (`AttributeError`,
    `ET.ParseError`) are resolved inside the corresponding definition,
    exactly as the source resolves them;
  * the file system is explicit state: the output CSV and the error
    sidecar are `Option (List String)` (`none` = file does not exist,
    `some lines` = its lines); `process_directory` takes the directory
    listing as a list of (filename, file content) pairs.
-/

/-- One XML element: tag, optional text, children in document order. -/
inductive XmlElement where
  | mk (tag : String) (text : Option String) (children : List XmlElement)

def XmlElement.tag : XmlElement → String
  | .mk t _ _ => t

def XmlElement.text : XmlElement → Option String
  | .mk _ tx _ => tx

def XmlElement.children : XmlElement → List XmlElement
  | .mk _ _ cs => cs

/-- ElementTree `element.find(tag)`: first direct child with the tag. -/
def findChild (e : XmlElement) (t : String) : Option XmlElement :=
  e.children.find? (fun c => c.tag == t)

/-- ElementTree `element.findall(tag)`: all direct children with the tag. -/
def findallChildren (e : XmlElement) (t : String) : List XmlElement :=
  e.children.filter (fun c => c.tag == t)

mutual

/-- All elements with tag `t` in the subtree rooted at the element
(the element itself included), in document (pre-)order. -/
def descendantsOrSelf (t : String) : XmlElement → List XmlElement
  | .mk tg tx cs =>
    (if tg == t then [XmlElement.mk tg tx cs] else []) ++ descendantsOrSelfList t cs

/-- `descendantsOrSelf` mapped over a forest, concatenated in order. -/
def descendantsOrSelfList (t : String) : List XmlElement → List XmlElement
  | [] => []
  | c :: cs => descendantsOrSelf t c ++ descendantsOrSelfList t cs

end

/-- ElementTree `element.findall('.//tag')`: all proper descendants
with the tag, in document order. -/
def findallDeep (e : XmlElement) (t : String) : List XmlElement :=
  descendantsOrSelfList t e.children

/-- ElementTree `element.find('.//tag')`: first proper descendant with
the tag, in document order. -/
def findDeep (e : XmlElement) (t : String) : Option XmlElement :=
  (findallDeep e t).head?

/-- ElementTree `element.find('.//Abstract/AbstractText')`: the first
`AbstractText` child contributed by the `Abstract` descendants taken in
document order. -/
def findAbstractText (e : XmlElement) : Option XmlElement :=
  ((findallDeep e "Abstract").map (fun a => findallChildren a "AbstractText")).flatten.head?

/-- Python `str(x)` on an optional string, as an f-string renders it:
`None` prints as the four characters `None`. -/
def pyStr : Option String → String
  | none => "None"
  | some s => s

/-- Python `sep.join(items)` where the items may be `None`: returns the
joined string, or raises `TypeError` at the first `None` item.  The
auxiliary function carries the index used in the `TypeError` message. -/
def pyJoinAux : List (Option String) → Nat → Except String (List String)
  | [], _ => .ok []
  | none :: _, i =>
    .error ("sequence item " ++ toString i ++ ": expected str instance, NoneType found")
  | some s :: rest, i => (pyJoinAux rest (i + 1)).map (fun l => s :: l)

def pyJoin (sep : String) (items : List (Option String)) : Except String String :=
  (pyJoinAux items 0).map (String.intercalate sep)

/-- `extract_date(pub_date)`: `AttributeError` (raised when `pub_date`
is `None` or lacks a `Year` or `Month` child) yields `None`; otherwise
the f-string `f"{year}-{month}"` is built from the two `.text` values,
which may themselves be `None` and then print as `None`. -/
def extract_date : Option XmlElement → Option String
  | none => none
  | some pd =>
    match findChild pd "Year" with
    | none => none
    | some y =>
      match findChild pd "Month" with
      | none => none
      | some m => some (pyStr y.text ++ "-" ++ pyStr m.text)

/-- `parse_mesh_headings(mesh_list)`: `None` list yields `None`; else
collect `mh.find('DescriptorName').text` over the `MeshHeading` children
that have a `DescriptorName`, and join with `"; "` when non-empty.  The
join raises `TypeError` when a collected text is `None` (the source does
not guard the text, only the element), so the result is an `Except`. -/
def parse_mesh_headings : Option XmlElement → Except String (Option String)
  | none => .ok none
  | some mesh_list =>
    let headings :=
      ((findallChildren mesh_list "MeshHeading").filterMap
        (fun mh => findChild mh "DescriptorName")).map XmlElement.text
    if headings.isEmpty then .ok none
    else (pyJoin "; " headings).map (fun s => some s)

/-- `parse_keywords(keyword_list)`: `None` list yields `None`; else the
keyword texts that are not `None`, joined with `"; "` when non-empty. -/
def parse_keywords : Option XmlElement → Option String
  | none => none
  | some keyword_list =>
    let keywords := (findallChildren keyword_list "Keyword").filterMap XmlElement.text
    if keywords.isEmpty then none else some (String.intercalate "; " keywords)

/-- One extracted row of the output table. -/
structure Record where
  Date : Option String
  Title : Option String
  Abstract : Option String
  MeshHeading : Option String
  Keywords : Option String
deriving DecidableEq

/-- The body of the `for article in root.findall('PubmedArticle')` loop:
build one `Record` from one article element.  The only escape is the
`TypeError` from `parse_mesh_headings`. -/
def extract_record (article : XmlElement) : Except String Record :=
  match parse_mesh_headings (findDeep article "MeshHeadingList") with
  | .error e => .error e
  | .ok mesh_headings =>
    .ok { Date := extract_date (findDeep article "PubDate"),
          Title := (findDeep article "ArticleTitle").bind XmlElement.text,
          Abstract := (findAbstractText article).bind XmlElement.text,
          MeshHeading := mesh_headings,
          Keywords := parse_keywords (findDeep article "KeywordList") }

/-- What `ET.parse(file_path)` can see in one listed file: either the
file is not well-formed XML (`ET.ParseError`) or it has a root element. -/
inductive PyFile where
  | malformed
  | wellFormed (root : XmlElement)

/-- `parse_xml(file_path)`: a `ParseError` is caught and an empty list is
returned; otherwise one record per direct `PubmedArticle` child of the
root, in document order, with any extraction exception propagating. -/
def parse_xml : PyFile → Except String (List Record)
  | .malformed => .ok []
  | .wellFormed root => (findallChildren root "PubmedArticle").mapM extract_record

/-- Direct `PubmedArticle` children of the root: the article elements
the extractor iterates over. -/
def countArticles (root : XmlElement) : Nat :=
  (findallChildren root "PubmedArticle").length

/-- A CSV field needs quoting when it holds the delimiter, the quote
character, or a line break (pandas `to_csv` minimal quoting). -/
def needsQuote (s : String) : Bool :=
  s.data.any (fun c => c == ',' || c == '"' || c == '\n' || c == '\r')

/-- Double every quote character inside a quoted CSV field. -/
def escapeQuotes (s : String) : String :=
  String.mk (s.data.foldr (fun c acc => (if c == '"' then ['"', '"'] else [c]) ++ acc) [])

/-- One CSV cell: a missing value prints as the empty field (pandas
renders `None`/`NaN` as empty), a present value is minimally quoted. -/
def csvField : Option String → String
  | none => ""
  | some s => if needsQuote s then "\"" ++ escapeQuotes s ++ "\"" else s

/-- One data row of the output table, in the fixed column order the
first dictionary of `parse_xml` establishes. -/
def toCsvRow (r : Record) : String :=
  String.intercalate ","
    [csvField r.Date, csvField r.Title, csvField r.Abstract,
     csvField r.MeshHeading, csvField r.Keywords]

/-- The header row pandas writes for the record dictionaries. -/
def headerRow : String :=
  "Date,Title,Abstract,MeshHeading,Keywords"

/-- `save_records_to_csv(records, output_file)`: the new content of the
output file.  When the file does not exist (`none`) it is created with
the header followed by the data rows; otherwise the data rows are
appended to the existing lines, with no header. -/
def save_records_to_csv (records : List Record) (file : Option (List String)) : List String :=
  match file with
  | none => headerRow :: records.map toCsvRow
  | some lines => lines ++ records.map toCsvRow

/-- Python lexicographic comparison of strings (by code point). -/
def charsLt : List Char → List Char → Bool
  | [], [] => false
  | [], _ :: _ => true
  | _ :: _, [] => false
  | a :: as, b :: bs => if a < b then true else if b < a then false else charsLt as bs

def pyStrLt (s t : String) : Bool :=
  charsLt s.data t.data

/-- Python `s.endswith(suf)`. -/
def pyEndsWith (s suf : String) : Bool :=
  suf.data.isSuffixOf s.data

/-- Python `s.startswith(pre)`. -/
def pyStartsWith (s pre : String) : Bool :=
  pre.data.isPrefixOf s.data

/-- Python `f"{n:04d}"` for a natural number: zero-pad to width 4. -/
def pad4 (n : Nat) : String :=
  let s := toString n
  if s.length < 4 then String.mk (List.replicate (4 - s.length) '0') ++ s else s

/-- The filename pattern `f'pubmed24n{start_number:04d}'` that the
start-marker is matched against. -/
def markerPattern (n : Nat) : String :=
  "pubmed24n" ++ pad4 n

/-- Python truthiness of the optional `start_number` argument:
`None` and `0` are falsy, every other number is truthy. -/
def truthy : Option Nat → Bool
  | none => false
  | some 0 => false
  | some (_ + 1) => true

/-- Stable insertion of one directory entry into a name-sorted list. -/
def insertByName (x : String × PyFile) : List (String × PyFile) → List (String × PyFile)
  | [] => [x]
  | y :: ys => if pyStrLt x.1 y.1 then x :: y :: ys else y :: insertByName x ys

/-- `sorted(os.listdir(directory_path))`: the listing in ascending
name order (names in one directory are distinct). -/
def sortByName : List (String × PyFile) → List (String × PyFile)
  | [] => []
  | x :: xs => insertByName x (sortByName xs)

/-- The loop state of `process_directory`: the output file content,
the collected error messages, and the `start_processing` flag. -/
structure RunState where
  out : Option (List String)
  errors : List String
  started : Bool
deriving DecidableEq

/-- One iteration of the `for filename in sorted(os.listdir(...))` loop.
Non-`.xml` names are ignored.  While `start_processing` is false the
name is tested against the marker pattern (the marker is truthy there,
so `getD` never supplies its default on a reachable state).  A processed
file is parsed; a non-empty record list is saved immediately; an
exception escaping `parse_xml` is caught and logged with the joined
file path. -/
def stepFile (dirPath : String) (sn : Option Nat) (st : RunState) (f : String × PyFile) :
    RunState :=
  if pyEndsWith f.1 ".xml" then
    let started :=
      if !st.started && pyStartsWith f.1 (markerPattern (sn.getD 0)) then true else st.started
    if started then
      match parse_xml f.2 with
      | .ok records =>
        { out := if records.isEmpty then st.out else some (save_records_to_csv records st.out),
          errors := st.errors, started := started }
      | .error e =>
        { out := st.out,
          errors := st.errors ++ ["Error processing " ++ dirPath ++ "/" ++ f.1 ++ ": " ++ e],
          started := started }
    else
      { out := st.out, errors := st.errors, started := started }
  else st

/-- The whole file loop of `process_directory` over an already listed
sequence of files. -/
def run_files (dirPath : String) (sn : Option Nat) (st : RunState)
    (files : List (String × PyFile)) : RunState :=
  files.foldl (stepFile dirPath sn) st

/-- The observable outcome of one run: the output file content and the
error sidecar content (`error_log.txt` inside the source directory). -/
structure RunResult where
  out : Option (List String)
  errorFile : Option (List String)
  errors : List String
deriving DecidableEq

/-- The epilogue of `process_directory`: when at least one error was
collected the sidecar file is rewritten with exactly those lines,
otherwise the file system is left as it was. -/
def mkResult (errFile : Option (List String)) (fin : RunState) : RunResult :=
  { out := fin.out,
    errorFile := if fin.errors.isEmpty then errFile else some fin.errors,
    errors := fin.errors }

/-- `process_directory(directory_path, output_csv_file, start_number)`,
with the file system explicit: `listing` is what `os.listdir` returns
(name and content of each file), `outFile` the current output CSV
(`none` when absent), `errFile` the current sidecar file. -/
def process_directory (dirPath : String) (listing : List (String × PyFile))
    (outFile errFile : Option (List String)) (start_number : Option Nat) : RunResult :=
  mkResult errFile
    (run_files dirPath start_number
      { out := outFile, errors := [], started := !truthy start_number }
      (sortByName listing))

/-- The Keywords contract as the specification words it: every
keyword's text collected in document order, joined with `"; "`, absent
if the list is missing or yields no non-empty keywords (an empty
element carries no text node, so `XmlElement.text = none` is the
"empty-text" case). -/
def keywordsSpec (keyword_list : Option XmlElement) : Option String :=
  match keyword_list with
  | none => none
  | some l =>
    match (findallChildren l "Keyword").filterMap XmlElement.text with
    | [] => none
    | t :: ts => some (String.intercalate "; " (t :: ts))

/-! ## Concrete documents used by counterexamples and witnesses -/

/-- A root with three articles, each carrying only a title. -/
def c1doc : XmlElement :=
  .mk "PubmedArticleSet" none
    [.mk "PubmedArticle" none [.mk "ArticleTitle" (some "r1") []],
     .mk "PubmedArticle" none [.mk "ArticleTitle" (some "r2") []],
     .mk "PubmedArticle" none [.mk "ArticleTitle" (some "r3") []]]

/-- The three records `parse_xml` extracts from `c1doc`. -/
def c1records : List Record :=
  [{ Date := none, Title := some "r1", Abstract := none, MeshHeading := none, Keywords := none },
   { Date := none, Title := some "r2", Abstract := none, MeshHeading := none, Keywords := none },
   { Date := none, Title := some "r3", Abstract := none, MeshHeading := none, Keywords := none }]

/-- Two files: the first yields three records, the second is malformed. -/
def c1listing : List (String × PyFile) :=
  [("f1.xml", .wellFormed c1doc), ("f2.xml", .malformed)]

/-- An article whose heading list holds a `DescriptorName` element with
no text (`<DescriptorName/>` parses to text `None`). -/
def c2art : XmlElement :=
  .mk "PubmedArticle" none
    [.mk "ArticleTitle" (some "A study") [],
     .mk "MeshHeadingList" none
       [.mk "MeshHeading" none [.mk "DescriptorName" none []]]]

/-- A publication date whose `Year` child has no text. -/
def c3pd : XmlElement :=
  .mk "PubDate" none [.mk "Year" none [], .mk "Month" (some "Jan") []]

/-- A publication date with both children textual. -/
def c3pdGood : XmlElement :=
  .mk "PubDate" none [.mk "Year" (some "2020") [], .mk "Month" (some "Feb") []]

/-- A well-formed document with exactly one article, whose heading list
holds a text-less `DescriptorName`. -/
def c4doc : XmlElement :=
  .mk "PubmedArticleSet" none
    [.mk "PubmedArticle" none
      [.mk "MeshHeadingList" none
        [.mk "MeshHeading" none [.mk "DescriptorName" none []]]]]

/-- A one-article document titled `early`. -/
def c5docA : XmlElement :=
  .mk "PubmedArticleSet" none
    [.mk "PubmedArticle" none [.mk "ArticleTitle" (some "early") []]]

/-- A one-article document titled `target`. -/
def c5docB : XmlElement :=
  .mk "PubmedArticleSet" none
    [.mk "PubmedArticle" none [.mk "ArticleTitle" (some "target") []]]

/-- A directory where the marker-0 file is preceded by another name. -/
def c5listing : List (String × PyFile) :=
  [("a.xml", .wellFormed c5docA), ("pubmed24n0000.xml", .wellFormed c5docB)]

/-- A keyword list with one empty-text keyword and one textual keyword. -/
def c6list : XmlElement :=
  .mk "KeywordList" none
    [.mk "Keyword" none [], .mk "Keyword" (some "gene therapy") []]

/-- One fully populated record. -/
def c7record : Record :=
  { Date := some "2020-Jan", Title := some "T", Abstract := some "A",
    MeshHeading := some "M", Keywords := some "K" }

/-- A document whose single article makes extraction raise, so that a
run over it collects one error. -/
def c8doc : XmlElement :=
  .mk "PubmedArticleSet" none
    [.mk "PubmedArticle" none
      [.mk "ArticleTitle" (some "bad one") [],
       .mk "MeshHeadingList" none
         [.mk "MeshHeading" none [.mk "DescriptorName" none []]]]]

/-! ## Theorems -/

/-- The walk over an empty listing is the identity on the state. -/
theorem run_files_nil (d : String) (sn : Option Nat) (st : RunState) :
    run_files d sn st [] = st := rfl

/-- The walk over a non-empty listing steps through its head first. -/
theorem run_files_cons (d : String) (sn : Option Nat) (st : RunState)
    (f : String × PyFile) (fs : List (String × PyFile)) :
    run_files d sn st (f :: fs) = run_files d sn (stepFile d sn st f) fs := rfl

/-- Claim C2 (refuted by the code, which contradicts the clear intent of
the surrounding guards): a `MeshHeading` whose `DescriptorName` element
exists but carries no text makes the `"; ".join` raise `TypeError`, so
record construction for that article aborts instead of degrading the
field to absent. -/
theorem claim2_meshtext_aborts :
    extract_record c2art =
      Except.error "sequence item 0: expected str instance, NoneType found" := rfl

/-- Claim C4 (refuted by the code through the same slip as C2): a
well-formed document with exactly one article element yields no record
list at all — extraction raises — so the record count does not equal
the article count there. -/
theorem claim4_count_mismatch :
    countArticles c4doc = 1 ∧
    parse_xml (PyFile.wellFormed c4doc) =
      Except.error "sequence item 0: expected str instance, NoneType found" :=
  ⟨rfl, rfl⟩

/-- Claim C3, counterexample: when the `Year` child exists without text
and the `Month` child has text, the f-string interpolates Python `None`
and `extract_date` returns the string `None-Jan` instead of absent. -/
theorem claim3_counterexample : extract_date (some c3pd) = some "None-Jan" := rfl

/-- Claim C3 as amended: the Date field is `Year-Month` built from the
two text values whenever both a `Year` and a `Month` child element
exist (a missing text prints as `None`), and is absent exactly when the
publication-date element is absent or lacks a `Year` or a `Month`
child. -/
theorem claim3_date_amended :
    extract_date none = none ∧
    (∀ pd : XmlElement, findChild pd "Year" = none ∨ findChild pd "Month" = none →
      extract_date (some pd) = none) ∧
    (∀ (pd y m : XmlElement), findChild pd "Year" = some y → findChild pd "Month" = some m →
      extract_date (some pd) = some (pyStr y.text ++ "-" ++ pyStr m.text)) := by
  refine ⟨rfl, ?_, ?_⟩
  · intro pd h
    rcases h with h | h
    · simp [extract_date, h]
    · cases hy : findChild pd "Year" <;> simp [extract_date, h, hy]
  · intro pd y m hy hm
    simp [extract_date, hy, hm]

/-- Instantiation of the amended C3 on a concrete date element with
both texts present. -/
theorem claim3_witness : extract_date (some c3pdGood) = some "2020-Feb" :=
  claim3_date_amended.2.2 c3pdGood (XmlElement.mk "Year" (some "2020") [])
    (XmlElement.mk "Month" (some "Feb") []) rfl rfl

/-- Claim C6: `parse_keywords` agrees with the specification's wording
(keyword texts in document order, joined with `"; "`, absent when the
list is missing or yields nothing), and on a list with one empty-text
keyword and one keyword `gene therapy` it returns exactly
`gene therapy`. -/
theorem claim6_keywords :
    (∀ kl : Option XmlElement, parse_keywords kl = keywordsSpec kl) ∧
    parse_keywords (some c6list) = some "gene therapy" := by
  constructor
  · intro kl
    cases kl with
    | none => rfl
    | some l =>
      cases h : (findallChildren l "Keyword").filterMap XmlElement.text with
      | nil => simp [parse_keywords, keywordsSpec, h]
      | cons t ts => simp [parse_keywords, keywordsSpec, h]
  · rfl

/-- Claim C7: with a non-empty record batch, a missing destination is
created as the fixed header followed by the data rows, and an existing
destination is extended by the data rows alone, so the header is
written exactly once, at creation. -/
theorem claim7_incremental_writer (records : List Record) (h : records ≠ []) :
    save_records_to_csv records none = headerRow :: records.map toCsvRow ∧
    headerRow = "Date,Title,Abstract,MeshHeading,Keywords" ∧
    ∀ lines : List String,
      save_records_to_csv records (some lines) = lines ++ records.map toCsvRow :=
  ⟨rfl, rfl, fun _ => rfl⟩

/-- Instantiation of C7 on a one-record batch and a one-line existing
file. -/
theorem claim7_witness :
    [c7record] ≠ [] ∧
    (save_records_to_csv [c7record] none = headerRow :: [c7record].map toCsvRow ∧
     headerRow = "Date,Title,Abstract,MeshHeading,Keywords" ∧
     ∀ lines : List String,
       save_records_to_csv [c7record] (some lines) = lines ++ [c7record].map toCsvRow) :=
  ⟨by decide, claim7_incremental_writer [c7record] (by decide)⟩

/-- Claim C9: a start-marker of `0` is falsy in Python, so the run is
indistinguishable from a run with no start-marker at all: no file is
skipped while waiting for the `pubmed24n0000` pattern. -/
theorem claim9_zero_marker_no_skip :
    ∀ (d : String) (listing : List (String × PyFile))
      (outF errFile : Option (List String)),
      process_directory d listing outF errFile (some 0)
        = process_directory d listing outF errFile none :=
  fun _ _ _ _ => rfl

/-- Claim C10: a file whose contents fail XML parsing makes `parse_xml`
return the empty record list rather than raise, so the walker's step on
such a file changes neither the output table nor the error list. -/
theorem claim10_malformed_silent :
    parse_xml PyFile.malformed = Except.ok [] ∧
    ∀ (d : String) (sn : Option Nat) (st : RunState) (name : String),
      (stepFile d sn st (name, PyFile.malformed)).out = st.out ∧
      (stepFile d sn st (name, PyFile.malformed)).errors = st.errors := by
  refine ⟨rfl, fun d sn st name => ?_⟩
  unfold stepFile
  split
  · simp [parse_xml]
  · exact ⟨rfl, rfl⟩

/-- Claim C1, counterexample: with a first file yielding three records
and a malformed second file, the run leaves the error list empty and
writes no sidecar file at all — `parse_xml` swallows the `ParseError`
and returns an empty list, so the per-file handler never fires. -/
theorem claim1_counterexample :
    parse_xml (PyFile.wellFormed c1doc) = Except.ok c1records ∧
    c1records.length = 3 ∧
    (process_directory "data" c1listing none none none).errorFile = none ∧
    (process_directory "data" c1listing none none none).errors = [] :=
  ⟨rfl, rfl, rfl, rfl⟩

/-- Claim C1 as amended: for two files in sequence where the first
yields 3 records and the second is malformed, the output table holds
the header plus exactly the 3 data rows, and no error is collected and
no sidecar error file is written (the parse failure is only printed). -/
theorem claim1_amended (d n1 n2 : String) (root : XmlElement) (rs : List Record)
    (h1 : pyStrLt n1 n2 = true)
    (h2 : pyEndsWith n1 ".xml" = true) (h3 : pyEndsWith n2 ".xml" = true)
    (h4 : parse_xml (PyFile.wellFormed root) = Except.ok rs) (h5 : rs.length = 3) :
    process_directory d [(n1, PyFile.wellFormed root), (n2, PyFile.malformed)] none none none
      = { out := some (headerRow :: rs.map toCsvRow), errorFile := none, errors := [] } ∧
    (rs.map toCsvRow).length = 3 := by
  have hne : rs.isEmpty = false := by
    cases rs with
    | nil => simp at h5
    | cons a l => rfl
  constructor
  · have hsort : sortByName [(n1, PyFile.wellFormed root), (n2, PyFile.malformed)]
        = [(n1, PyFile.wellFormed root), (n2, PyFile.malformed)] := by
      simp [sortByName, insertByName, h1]
    have hstep1 : stepFile d none { out := none, errors := [], started := true }
          (n1, PyFile.wellFormed root)
        = { out := some (headerRow :: rs.map toCsvRow), errors := [], started := true } := by
      simp [stepFile, h2, h4, hne, save_records_to_csv]
    have hstep2 : stepFile d none
          { out := some (headerRow :: rs.map toCsvRow), errors := [], started := true }
          (n2, PyFile.malformed)
        = { out := some (headerRow :: rs.map toCsvRow), errors := [], started := true } := by
      simp [stepFile, h3, parse_xml]
    unfold process_directory
    rw [hsort]
    simp only [truthy, Bool.not_false]
    rw [run_files_cons, hstep1, run_files_cons, hstep2, run_files_nil]
    simp [mkResult]
  · simp [h5]

/-- Instantiation of the amended C1 on a concrete three-record file
followed by a malformed file. -/
theorem claim1_witness :
    parse_xml (PyFile.wellFormed c1doc) = Except.ok c1records ∧
    (process_directory "dir"
        [("pubmed24n0001.xml", PyFile.wellFormed c1doc), ("pubmed24n0002.xml", PyFile.malformed)]
        none none none
      = { out := some (headerRow :: c1records.map toCsvRow), errorFile := none, errors := [] } ∧
     (c1records.map toCsvRow).length = 3) :=
  ⟨rfl, claim1_amended "dir" "pubmed24n0001.xml" "pubmed24n0002.xml" c1doc c1records
    rfl rfl rfl rfl rfl⟩

/-- Claim C5, counterexample: with the start-marker `0`, whose pattern
matches only the second file of the sorted listing, the first file is
not skipped — its row `early` reaches the output table — because `0` is
falsy and disables the skip logic entirely. -/
theorem claim5_counterexample :
    pyStartsWith "pubmed24n0000.xml" (markerPattern 0) = true ∧
    pyStartsWith "a.xml" (markerPattern 0) = false ∧
    (process_directory "d" c5listing none none (some 0)).out
      = some [headerRow, ",early,,,", ",target,,,"] :=
  ⟨rfl, rfl, rfl⟩

/-- A step of the walker never changes a `start_processing` flag that
is already set. -/
theorem stepFile_keeps_started (d : String) (sn : Option Nat) (st : RunState)
    (f : String × PyFile) (h : st.started = true) :
    (stepFile d sn st f).started = true := by
  by_cases h1 : pyEndsWith f.1 ".xml" = true
  · cases hp : parse_xml f.2 with
    | ok rs => simp [stepFile, h1, h, hp]
    | error e => simp [stepFile, h1, h, hp]
  · simp [stepFile, h1, h]

/-- Once `start_processing` is set, the step does not consult the
start-marker: the same state results for any marker. -/
theorem stepFile_marker_irrelevant (d : String) (sn snB : Option Nat) (st : RunState)
    (f : String × PyFile) (h : st.started = true) :
    stepFile d sn st f = stepFile d snB st f := by
  simp [stepFile, h]

/-- Once `start_processing` is set, the whole remaining walk does not
consult the start-marker. -/
theorem run_files_marker_irrelevant (d : String) (sn snB : Option Nat) :
    ∀ (files : List (String × PyFile)) (st : RunState), st.started = true →
      run_files d sn st files = run_files d snB st files := by
  intro files
  induction files with
  | nil => intro st _; rfl
  | cons f fs ih =>
    intro st h
    rw [run_files_cons, run_files_cons, stepFile_marker_irrelevant d sn snB st f h]
    exact ih (stepFile d snB st f) (stepFile_keeps_started d snB st f h)

/-- While `start_processing` is clear, the walk with marker `k` equals
the markerless walk over the tail obtained by dropping every file up to
(but not including) the first `.xml` file matching the marker pattern,
as far as the output table and the error list are concerned. -/
theorem run_files_skip (d : String) (k : Nat) :
    ∀ (files : List (String × PyFile)) (out : Option (List String)) (errors : List String),
      (run_files d (some k) { out := out, errors := errors, started := false } files).out
        = (run_files d none { out := out, errors := errors, started := true }
            (files.dropWhile
              (fun f => !(pyEndsWith f.1 ".xml" && pyStartsWith f.1 (markerPattern k))))).out
      ∧ (run_files d (some k) { out := out, errors := errors, started := false } files).errors
        = (run_files d none { out := out, errors := errors, started := true }
            (files.dropWhile
              (fun f => !(pyEndsWith f.1 ".xml" && pyStartsWith f.1 (markerPattern k))))).errors := by
  intro files
  induction files with
  | nil => intro out errors; exact ⟨rfl, rfl⟩
  | cons f fs ih =>
    intro out errors
    by_cases h1 : pyEndsWith f.1 ".xml" = true
    · by_cases h2 : pyStartsWith f.1 (markerPattern k) = true
      · have hdrop : (f :: fs).dropWhile
            (fun f => !(pyEndsWith f.1 ".xml" && pyStartsWith f.1 (markerPattern k)))
            = f :: fs := by
          simp [List.dropWhile_cons, h1, h2]
        have hstep : stepFile d (some k) { out := out, errors := errors, started := false } f
            = stepFile d none { out := out, errors := errors, started := true } f := by
          cases hp : parse_xml f.2 with
          | ok rs => simp [stepFile, h1, h2, hp]
          | error e => simp [stepFile, h1, h2, hp]
        have hkeep : (stepFile d none { out := out, errors := errors, started := true } f).started
            = true :=
          stepFile_keeps_started d none _ f rfl
        rw [hdrop, run_files_cons, run_files_cons, hstep,
          run_files_marker_irrelevant d (some k) none fs _ hkeep]
        exact ⟨rfl, rfl⟩
      · have hstep : stepFile d (some k) { out := out, errors := errors, started := false } f
            = { out := out, errors := errors, started := false } := by
          simp [stepFile, h1, h2]
        have hdrop : (f :: fs).dropWhile
            (fun f => !(pyEndsWith f.1 ".xml" && pyStartsWith f.1 (markerPattern k)))
            = fs.dropWhile
              (fun f => !(pyEndsWith f.1 ".xml" && pyStartsWith f.1 (markerPattern k))) := by
          simp [List.dropWhile_cons, h1, h2]
        rw [run_files_cons, hstep, hdrop]
        exact ih out errors
    · have hstep : stepFile d (some k) { out := out, errors := errors, started := false } f
          = { out := out, errors := errors, started := false } := by
        simp [stepFile, h1]
      have hdrop : (f :: fs).dropWhile
          (fun f => !(pyEndsWith f.1 ".xml" && pyStartsWith f.1 (markerPattern k)))
          = fs.dropWhile
            (fun f => !(pyEndsWith f.1 ".xml" && pyStartsWith f.1 (markerPattern k))) := by
        simp [List.dropWhile_cons, h1]
      rw [run_files_cons, hstep, hdrop]
      exact ih out errors

/-- Claim C5 as amended: a positive start-marker makes the run behave
exactly like a markerless run over the sorted listing with every file
before the first matching `.xml` name dropped — the skipped files
contribute no records and no errors — while with no marker the run
processes the sorted listing from the first file. -/
theorem claim5_amended (d : String) (listing : List (String × PyFile))
    (outF errFile : Option (List String)) (k : Nat) (hk : 0 < k) :
    process_directory d listing outF errFile (some k)
      = mkResult errFile
          (run_files d none { out := outF, errors := [], started := true }
            ((sortByName listing).dropWhile
              (fun f => !(pyEndsWith f.1 ".xml" && pyStartsWith f.1 (markerPattern k))))) ∧
    process_directory d listing outF errFile none
      = mkResult errFile
          (run_files d none { out := outF, errors := [], started := true }
            (sortByName listing)) := by
  constructor
  · have ht : truthy (some k) = true := by
      cases k with
      | zero => exact absurd hk (by simp)
      | succ n => rfl
    obtain ⟨ho, he⟩ := run_files_skip d k (sortByName listing) outF []
    simp only [process_directory, ht, Bool.not_true, mkResult, ho, he]
  · rfl

/-- Instantiation of the amended C5: marker `2` on a two-file directory
skips the `0001` file and processes from the `0002` file on. -/
theorem claim5_witness :
    process_directory "d"
        [("pubmed24n0001.xml", PyFile.wellFormed c5docA),
         ("pubmed24n0002.xml", PyFile.wellFormed c5docB)] none none (some 2)
      = mkResult none
          (run_files "d" none { out := none, errors := [], started := true }
            ((sortByName
                [("pubmed24n0001.xml", PyFile.wellFormed c5docA),
                 ("pubmed24n0002.xml", PyFile.wellFormed c5docB)]).dropWhile
              (fun f => !(pyEndsWith f.1 ".xml" && pyStartsWith f.1 (markerPattern 2))))) ∧
    process_directory "d"
        [("pubmed24n0001.xml", PyFile.wellFormed c5docA),
         ("pubmed24n0002.xml", PyFile.wellFormed c5docB)] none none none
      = mkResult none
          (run_files "d" none { out := none, errors := [], started := true }
            (sortByName
              [("pubmed24n0001.xml", PyFile.wellFormed c5docA),
               ("pubmed24n0002.xml", PyFile.wellFormed c5docB)])) :=
  claim5_amended "d"
    [("pubmed24n0001.xml", PyFile.wellFormed c5docA),
     ("pubmed24n0002.xml", PyFile.wellFormed c5docB)] none none 2 (by decide)

/-- Each walker step either keeps the error list or appends exactly one
line of the form `Error processing <dir>/<name>: <message>`. -/
theorem stepFile_errors_shape (d : String) (sn : Option Nat) (st : RunState)
    (f : String × PyFile) :
    (stepFile d sn st f).errors = st.errors ∨
    ∃ e, (stepFile d sn st f).errors
      = st.errors ++ ["Error processing " ++ d ++ "/" ++ f.1 ++ ": " ++ e] := by
  by_cases h1 : pyEndsWith f.1 ".xml" = true
  · cases hst : st.started with
    | false =>
      by_cases h2 : pyStartsWith f.1 (markerPattern (sn.getD 0)) = true
      · cases hp : parse_xml f.2 with
        | ok rs => left; simp [stepFile, h1, hst, h2, hp]
        | error e => right; exact ⟨e, by simp [stepFile, h1, hst, h2, hp]⟩
      · left; simp [stepFile, h1, hst, h2]
    | true =>
      cases hp : parse_xml f.2 with
      | ok rs => left; simp [stepFile, h1, hst, hp]
      | error e => right; exact ⟨e, by simp [stepFile, h1, hst, hp]⟩
  · left; simp [stepFile, h1]

/-- Every line the whole walk collects has the sidecar line form. -/
theorem run_files_errors_shape (d : String) (sn : Option Nat) :
    ∀ (files : List (String × PyFile)) (st : RunState),
      (∀ l ∈ st.errors, ∃ name msg, l = "Error processing " ++ d ++ "/" ++ name ++ ": " ++ msg) →
      ∀ l ∈ (run_files d sn st files).errors,
        ∃ name msg, l = "Error processing " ++ d ++ "/" ++ name ++ ": " ++ msg := by
  intro files
  induction files with
  | nil => intro st h; exact h
  | cons f fs ih =>
    intro st h
    simp only [run_files, List.foldl_cons] at ih ⊢
    refine ih (stepFile d sn st f) ?_
    intro l hl
    rcases stepFile_errors_shape d sn st f with he | ⟨e, he⟩
    · exact h l (he ▸ hl)
    · rw [he] at hl
      rcases List.mem_append.mp hl with hmem | hmem
      · exact h l hmem
      · refine ⟨f.1, e, ?_⟩
        simpa using hmem

/-- Claim C8: after a run, the sidecar file is rewritten with exactly
the collected error lines when at least one was collected, and is left
untouched when none was; every collected line has the form
`Error processing <dir>/<name>: <message>`. -/
theorem claim8_error_sidecar (d : String) (listing : List (String × PyFile))
    (outF errFile : Option (List String)) (sn : Option Nat) (res : RunResult)
    (hres : res = process_directory d listing outF errFile sn) :
    (res.errors ≠ [] → res.errorFile = some res.errors) ∧
    (res.errors = [] → res.errorFile = errFile) ∧
    ∀ l ∈ res.errors,
      ∃ name msg, l = "Error processing " ++ d ++ "/" ++ name ++ ": " ++ msg := by
  subst hres
  refine ⟨?_, ?_, ?_⟩
  · intro h
    simp only [process_directory, mkResult] at h ⊢
    rw [if_neg]
    simp only [List.isEmpty_iff]
    exact h
  · intro h
    simp only [process_directory, mkResult] at h ⊢
    rw [if_pos]
    simp only [List.isEmpty_iff]
    exact h
  · intro l hl
    simp only [process_directory, mkResult] at hl
    refine run_files_errors_shape d sn (sortByName listing) _ ?_ l hl
    intro x hx
    exact absurd hx (List.not_mem_nil x)

/-- Instantiation of C8 on a run that collects one error (the first
file's article aborts extraction) next to a clean file. -/
theorem claim8_witness :
    ((process_directory "dd" [("z1.xml", PyFile.wellFormed c8doc)] none none none).errors ≠ [] →
      (process_directory "dd" [("z1.xml", PyFile.wellFormed c8doc)] none none none).errorFile
        = some (process_directory "dd" [("z1.xml", PyFile.wellFormed c8doc)] none none none).errors) ∧
    ((process_directory "dd" [("z1.xml", PyFile.wellFormed c8doc)] none none none).errors = [] →
      (process_directory "dd" [("z1.xml", PyFile.wellFormed c8doc)] none none none).errorFile
        = none) ∧
    ∀ l ∈ (process_directory "dd" [("z1.xml", PyFile.wellFormed c8doc)] none none none).errors,
      ∃ name msg, l = "Error processing " ++ "dd" ++ "/" ++ name ++ ": " ++ msg :=
  claim8_error_sidecar "dd" [("z1.xml", PyFile.wellFormed c8doc)] none none none _ rfl
